import Mathlib

/-!
Verification of the MiniHASS smart-home controller (src/app.py) against its
natural-language specification.

The development shallowly embeds the device-protocol core of the program:

* the TP-Link XOR stream cipher with its 4-byte big-endian length framing
  (TPLinkDevice.encrypt / TPLinkDevice.decrypt, app.py lines 101-121);
* the TP-Link command layer (send_command / get_info / turn_on / turn_off,
  lines 123-159) over an abstract network;
* the WebOS TV session (_execute_command / _handle_client_commands /
  _get_screen_state, lines 177-259) over an abstract device world that
  records pairing-key saves;
* the device-state cache (update_device_state, lines 262-266) and the two
  dispatch routes control_tplink / control_tv (lines 362-441).

Python strings are modelled as lists of natural-number code points, bytes
objects as lists of naturals below 256, and JSON values by the Json type
below.  Operations that can raise in Python are Option-valued: none stands
for a raised exception (or for the Python value None where noted).
-/

/-! ## JSON values and Python value semantics -/

/-- JSON values as produced by json.loads.  Numbers are modelled as integers;
the responses and commands relevant to this program use only integer
numerics. -/
inductive Json where
  | null : Json
  | bool : Bool → Json
  | num : Int → Json
  | str : String → Json
  | arr : List Json → Json
  | obj : List (String × Json) → Json

/-- Python truthiness of a JSON value: None, False, 0, empty string, empty
list and empty dict are falsy. -/
def py_truthy : Json → Bool
  | .null => false
  | .bool b => b
  | .num n => n != 0
  | .str s => s != ""
  | .arr xs => !xs.isEmpty
  | .obj fs => !fs.isEmpty

/-- Python equality of a JSON value with a string key, as used by the
membership test on lists (string compares unequal to non-strings). -/
def jsonIsStr (key : String) : Json → Bool
  | .str s => s == key
  | _ => false

/-- Substring test on character lists, used for the Python membership test
on strings. -/
def charSub (needle : List Char) : List Char → Bool
  | [] => needle.isEmpty
  | c :: rest => List.isPrefixOf needle (c :: rest) || charSub needle rest

/-- Python membership test key in v.  Defined for dicts (key lookup), lists
(element equality) and strings (substring); on other values the test raises
TypeError, modelled as none. -/
def py_in (key : String) : Json → Option Bool
  | .obj fs => some (fs.any (fun p => p.1 == key))
  | .arr xs => some (xs.any (jsonIsStr key))
  | .str s => some (charSub key.data s.data)
  | _ => none

/-- Python subscription v[key].  On a dict this looks the key up (KeyError
when absent); on any other value it raises TypeError.  Both raises are
modelled as none, since every caller in the program wraps subscription in a
catch-all handler. -/
def py_getitem (j : Json) (key : String) : Option Json :=
  match j with
  | .obj fs => fs.lookup key
  | _ => none

/-- Python test v == 1 as used on the relay_state field: true for the
integer 1 and for True (Python booleans compare equal to 0/1); never
raises. -/
def py_eq_one : Json → Bool
  | .num n => n == 1
  | .bool b => b
  | _ => false

/-- Truthiness of an optional string (a Python value that is None or a
string): None and the empty string are falsy. -/
def py_truthy_opt : Option String → Bool
  | none => false
  | some s => s != ""

/-! ## TPLinkDevice: the XOR stream cipher (app.py lines 101-121)

encrypt (line 101) seeds a running key with 171, prefixes the output with
struct.pack of the plaintext length (4-byte big-endian unsigned, which
raises struct.error when the length is at least 2 to the 32), and then for
each character emits a = key XOR ord(char) and sets key to a; bytes([a])
raises ValueError when a is 256 or more.  decrypt (line 112) seeds the key
with 171 and for each byte emits chr(key XOR byte) and sets key to the
input byte; chr raises ValueError at 0x110000 and above. -/

namespace TPLinkDevice

/-- The encryption loop of encrypt (lines 106-109): running-key XOR where
the key becomes the emitted ciphertext byte.  none models the ValueError
raised by bytes([a]) when a is outside the byte range. -/
def encBytes (key : Nat) : List Nat → Option (List Nat)
  | [] => some []
  | c :: rest =>
    let a := key ^^^ c
    if a < 256 then (encBytes a rest).map (fun t => a :: t) else none

/-- struct.pack of a length below 2 to the 32 as a 4-byte big-endian
unsigned integer (line 105). -/
def pack_be4 (n : Nat) : List Nat :=
  [n / 2 ^ 24 % 256, n / 2 ^ 16 % 256, n / 2 ^ 8 % 256, n % 256]

/-- encrypt (lines 101-110): length prefix followed by the ciphered
plaintext; none models a raised struct.error or ValueError. -/
def encrypt (s : List Nat) : Option (List Nat) :=
  if s.length < 2 ^ 32 then (encBytes 171 s).map (fun t => pack_be4 s.length ++ t)
  else none

/-- The decryption loop of decrypt (lines 117-120): running-key XOR where
the key becomes the consumed ciphertext byte.  none models the ValueError
raised by chr above 0x10FFFF (unreachable on byte-range input). -/
def decBytes (key : Nat) : List Nat → Option (List Nat)
  | [] => some []
  | b :: rest =>
    let a := key ^^^ b
    if a < 1114112 then (decBytes b rest).map (fun t => a :: t) else none

/-- decrypt (lines 112-121): the decryption loop seeded with 171. -/
def decrypt (d : List Nat) : Option (List Nat) := decBytes 171 d

/-- The value of the key variable of the encrypt loop after it has consumed
a given list of plaintext characters (lines 107-108 run repeatedly). -/
def encKeyAfter (key : Nat) : List Nat → Nat
  | [] => key
  | c :: rest => encKeyAfter (key ^^^ c) rest

/-- The value of the key variable of the decrypt loop after it has consumed
a given list of ciphertext bytes (lines 118-119 run repeatedly). -/
def decKeyAfter (key : Nat) : List Nat → Nat
  | [] => key
  | b :: rest => decKeyAfter b rest

/-- Outcome of the socket exchange inside send_command: err models a raised
connect, send, timeout or recv error on lines 127-133; ok carries the bytes
that recv returned on line 133.  The ip and port arguments of send_command
only select the peer, so they are absorbed into this abstraction. -/
inductive NetResult where
  | err : NetResult
  | ok : List Nat → NetResult

/-- send_command (lines 123-141): encrypt the serialized command, exchange
it over a socket, strip the first 4 bytes of the response, decrypt, and
parse the text as JSON.  The command argument is the code-point sequence of
json.dumps(command); loads is the JSON parser, returning none on a parse
error.  Every failure inside the try block (socket error, encrypt or
decrypt raising, parse error) is caught on line 139 and surfaces as none,
the model of the Python return value None. -/
def send_command (command : List Nat) (net : NetResult)
    (loads : List Nat → Option Json) : Option Json :=
  match net with
  | .err => none
  | .ok data =>
    match encrypt command with
    | none => none
    | some _ =>
      match decrypt (data.drop 4) with
      | none => none
      | some response => loads response

/-- The command object built by get_info (line 146). -/
def get_info_command : Json :=
  .obj [("system", .obj [("get_sysinfo", .obj [])])]

/-- The command object built by turn_on (line 152). -/
def turn_on_command : Json :=
  .obj [("system", .obj [("set_relay_state", .obj [("state", .num 1)])])]

/-- The command object built by turn_off (line 158). -/
def turn_off_command : Json :=
  .obj [("system", .obj [("set_relay_state", .obj [("state", .num 0)])])]

end TPLinkDevice

namespace WebOSTV

/-- Outcome of the power-state request on line 248: raise models the
request raising or returning a value without a get method (malformed
response), both swallowed by the handler on lines 257-259; ok carries
result.get of the state field, none when the field is missing. -/
inductive PowerResponse where
  | raise : PowerResponse
  | ok : Option Json → PowerResponse

/-- Python membership of the power-state value in a list of strings, as on
lines 252 and 254: true exactly when the value is one of the strings
(non-strings compare unequal to every string and never raise). -/
def state_in (v : Option Json) (vals : List String) : Bool :=
  match v with
  | some (.str s) => decide (s ∈ vals)
  | _ => false

/-- _get_screen_state (lines 246-259): Active and Screen On map to True,
Power Off and Screen Off map to False, anything else, a missing field, or a
raising or malformed response maps to None via the catch-all handler. -/
def get_screen_state (r : PowerResponse) : Option Bool :=
  match r with
  | .raise => none
  | .ok power_state =>
    if state_in power_state ["Active", "Screen On"] then some true
    else if state_in power_state ["Power Off", "Screen Off"] then some false
    else none

/-- The environment of one TV session: what the credential store and the
WebOS client library do during a single _execute_command call. -/
structure TVWorld where
  loadOk : Bool
  loadedKey : Option String
  connectOk : Bool
  yieldedKey : Option String
  commandRaises : Bool
  powerResponse : PowerResponse

/-- _handle_client_commands (lines 207-232), reached only after a
successful connection.  Returns the list of save_client_key calls made
(line 214) and the command outcome: outer none models an exception escaping
to the caller (client.command raising on line 219 or 224), some v the
Python return value, with v = none for Python None (unknown command, or the
unknown power state).  The comparison on line 212 saves the new client key
only when it is truthy and differs from the key loaded before connecting,
and this happens before the command dispatch. -/
def handle_client_commands (w : TVWorld) (original_key : Option String)
    (command : String) : List String × Option (Option Bool) :=
  let saves :=
    if py_truthy_opt w.yieldedKey ∧ w.yieldedKey ≠ original_key
    then [w.yieldedKey.getD ""] else []
  if command = "turn_off" then
    (saves, if w.commandRaises then none else some (some true))
  else if command = "turn_on" then
    (saves, if w.commandRaises then none else some (some true))
  else if command = "get_power" then
    (saves, some (get_screen_state w.powerResponse))
  else
    (saves, some none)

/-- _execute_command (lines 177-205): load the stored client key, connect
with it, and hand off to _handle_client_commands; every exception (load
raising, the connection failing, or an exception escaping the handler) is
caught on line 199 and surfaces as the result None.  Returns the Python
result and the list of credential saves performed.  The two
connection-shape branches on lines 186-197 run the same handler and only
differ in transport cleanup, which has no observable effect here. -/
def execute_command (w : TVWorld) (command : String) :
    Option Bool × List String :=
  if w.loadOk = false then (none, [])
  else if w.connectOk = false then (none, [])
  else
    match handle_client_commands w w.loadedKey command with
    | (saves, none) => (none, saves)
    | (saves, some v) => (v, saves)

end WebOSTV

/-- The result of one dispatch route call: ok carries the success response
with its boolean state (HTTP 200), err a fixed-message error response
(HTTP 4xx or 5xx), and exn the catch-all error response built from a raised
exception (lines 389-391 and 439-441). -/
inductive RouteResult where
  | ok : Bool → RouteResult
  | err : String → RouteResult
  | exn : RouteResult
deriving DecidableEq

/-- The module-level device_states dict (lines 89-93): its keys are exactly
tplink, tv and last_update, and the two route handlers are its only
writers. -/
structure DeviceStates where
  tplink : Bool
  tv : Bool
  last_update : Nat
deriving DecidableEq

/-- update_device_state (lines 262-266): set the state of one device and
the shared timestamp under the lock.  The callers only ever pass the
strings tplink and tv; any other key would extend the dict, which no
modelled reader observes, so it is rendered as a timestamp-only update. -/
def update_device_state (st : DeviceStates) (device : String) (state : Bool)
    (now : Nat) : DeviceStates :=
  if device = "tplink" then { tplink := state, tv := st.tv, last_update := now }
  else if device = "tv" then { tplink := st.tplink, tv := state, last_update := now }
  else { st with last_update := now }

/-- control_tplink (lines 362-391): the /api/tplink/action route.  cfg_ip
is config.get of tplink_ip; dev maps each command object to the value
send_command returns for it (none for Python None).  The result triple is
the HTTP outcome, the updated state cache, and the list of command objects
sent to the device in order (the network I/O trace).  An action outside
on, off, status falls through every branch to the generic Command failed
response on line 387 without any device I/O. -/
def control_tplink (cfg_ip : Option String) (action : String)
    (dev : Json → Option Json) (st : DeviceStates) (now : Nat) :
    RouteResult × DeviceStates × List Json :=
  if py_truthy_opt cfg_ip then
    if action = "on" then
      match dev TPLinkDevice.turn_on_command with
      | some result =>
        if py_truthy result then
          match py_in "system" result with
          | none => (.exn, st, [TPLinkDevice.turn_on_command])
          | some true =>
            (.ok true, update_device_state st "tplink" true now,
              [TPLinkDevice.turn_on_command])
          | some false => (.err "Command failed", st, [TPLinkDevice.turn_on_command])
        else (.err "Command failed", st, [TPLinkDevice.turn_on_command])
      | none => (.err "Command failed", st, [TPLinkDevice.turn_on_command])
    else if action = "off" then
      match dev TPLinkDevice.turn_off_command with
      | some result =>
        if py_truthy result then
          match py_in "system" result with
          | none => (.exn, st, [TPLinkDevice.turn_off_command])
          | some true =>
            (.ok false, update_device_state st "tplink" false now,
              [TPLinkDevice.turn_off_command])
          | some false => (.err "Command failed", st, [TPLinkDevice.turn_off_command])
        else (.err "Command failed", st, [TPLinkDevice.turn_off_command])
      | none => (.err "Command failed", st, [TPLinkDevice.turn_off_command])
    else if action = "status" then
      match dev TPLinkDevice.get_info_command with
      | some result =>
        if py_truthy result then
          match py_in "system" result with
          | none => (.exn, st, [TPLinkDevice.get_info_command])
          | some true =>
            match py_getitem result "system" with
            | none => (.exn, st, [TPLinkDevice.get_info_command])
            | some sys =>
              match py_getitem sys "get_sysinfo" with
              | none => (.exn, st, [TPLinkDevice.get_info_command])
              | some gsi =>
                match py_getitem gsi "relay_state" with
                | none => (.exn, st, [TPLinkDevice.get_info_command])
                | some rs =>
                  (.ok (py_eq_one rs),
                    update_device_state st "tplink" (py_eq_one rs) now,
                    [TPLinkDevice.get_info_command])
          | some false => (.err "Command failed", st, [TPLinkDevice.get_info_command])
        else (.err "Command failed", st, [TPLinkDevice.get_info_command])
      | none => (.err "Command failed", st, [TPLinkDevice.get_info_command])
    else (.err "Command failed", st, [])
  else (.err "TP-Link IP not configured", st, [])

/-- control_tv (lines 394-441): the /api/tv/action route.  cfg_ip is
config.get of tv_ip; the TVWorld argument is the session environment for
the single _execute_command call the route makes.  The result is the HTTP
outcome, the updated state cache, the credential saves performed, and the
number of TV connection attempts (device I/O).  An action outside
screen_on, screen_off, status reaches the Invalid action response on line
427 without any device I/O. -/
def control_tv (cfg_ip : Option String) (action : String) (w : WebOSTV.TVWorld)
    (st : DeviceStates) (now : Nat) :
    RouteResult × DeviceStates × List String × Nat :=
  if py_truthy_opt cfg_ip then
    if action = "screen_on" then
      match WebOSTV.execute_command w "turn_on" with
      | (some true, saves) => (.ok true, update_device_state st "tv" true now, saves, 1)
      | (_, saves) => (.err "Failed to turn screen on", st, saves, 1)
    else if action = "screen_off" then
      match WebOSTV.execute_command w "turn_off" with
      | (some true, saves) => (.ok false, update_device_state st "tv" false now, saves, 1)
      | (_, saves) => (.err "Failed to turn screen off", st, saves, 1)
    else if action = "status" then
      match WebOSTV.execute_command w "get_power" with
      | (some b, saves) => (.ok b, update_device_state st "tv" b now, saves, 1)
      | (none, saves) => (.err "Failed to get power state", st, saves, 1)
    else (.err "Invalid action", st, [], 0)
  else (.err "TV IP not configured", st, [], 0)

namespace TPLinkDevice

theorem xor_lt_256 {a b : Nat} (ha : a < 256) (hb : b < 256) : a ^^^ b < 256 := by
  have h : (256 : Nat) = 2 ^ 8 := by norm_num
  rw [h] at ha hb ⊢
  exact Nat.xor_lt_two_pow ha hb

/-- Successful encryption of a byte-range plaintext: the ciphertext has the
same length, stays in byte range, and the decryption loop seeded with the
same key inverts it. -/
theorem encBytes_decBytes : ∀ (key : Nat) (s cs : List Nat), key < 256 →
    encBytes key s = some cs →
    cs.length = s.length ∧ (∀ b ∈ cs, b < 256) ∧ decBytes key cs = some s := by
  intro key s
  induction s generalizing key with
  | nil =>
    intro cs _ h
    simp only [encBytes, Option.some.injEq] at h
    subst h
    simp [decBytes]
  | cons c rest ih =>
    intro cs hkey h
    simp only [encBytes] at h
    by_cases ha : key ^^^ c < 256
    · rw [if_pos ha] at h
      cases hrec : encBytes (key ^^^ c) rest with
      | none => rw [hrec] at h; simp at h
      | some cs' =>
        rw [hrec] at h
        simp only [Option.map_some', Option.some.injEq] at h
        subst h
        obtain ⟨hlen, hbs, hdec⟩ := ih (key ^^^ c) cs' ha hrec
        refine ⟨by simp [hlen], ?_, ?_⟩
        · intro b hb
          rcases List.mem_cons.mp hb with hb | hb
          · subst hb; exact ha
          · exact hbs b hb
        · have hc : key ^^^ (key ^^^ c) = c := Nat.xor_cancel_left key c
          have hclt : c < 1114112 := by
            have : c < 256 := by rw [← hc]; exact xor_lt_256 hkey ha
            omega
          simp only [decBytes, hc]
          rw [if_pos hclt, hdec]
          rfl
    · rw [if_neg ha] at h
      simp at h

/-- The encryption loop succeeds on every byte-range plaintext when seeded
with a byte-range key. -/
theorem encBytes_isSome : ∀ (key : Nat) (s : List Nat), key < 256 →
    (∀ c ∈ s, c < 256) → ∃ cs, encBytes key s = some cs := by
  intro key s
  induction s generalizing key with
  | nil => intro _ _; exact ⟨[], rfl⟩
  | cons c rest ih =>
    intro hkey hs
    have hc : c < 256 := hs c (List.mem_cons_self c rest)
    have ha : key ^^^ c < 256 := xor_lt_256 hkey hc
    obtain ⟨cs', hcs'⟩ := ih (key ^^^ c) ha (fun x hx => hs x (List.mem_cons_of_mem c hx))
    refine ⟨(key ^^^ c) :: cs', ?_⟩
    simp only [encBytes]
    rw [if_pos ha, hcs']
    rfl

/-- The encryption loop raises as soon as the plaintext contains a
character outside the byte range, provided the key is in byte range. -/
theorem encBytes_isNone : ∀ (key : Nat) (s : List Nat), key < 256 →
    (∃ c ∈ s, 256 ≤ c) → encBytes key s = none := by
  intro key s
  induction s generalizing key with
  | nil => intro _ h; simp at h
  | cons c rest ih =>
    intro hkey ⟨c₀, hc₀, hge⟩
    simp only [encBytes]
    rcases List.mem_cons.mp hc₀ with hh | hh
    · subst hh
      have ha : ¬ key ^^^ c₀ < 256 := by
        intro hlt
        have : c₀ < 256 := by
          have := Nat.xor_cancel_left key c₀
          rw [← this]
          exact xor_lt_256 hkey hlt
        omega
      rw [if_neg ha]
    · by_cases ha : key ^^^ c < 256
      · rw [if_pos ha, ih (key ^^^ c) ha ⟨c₀, hh, hge⟩]
        rfl
      · rw [if_neg ha]

/-- The running key of the encrypt loop after each position equals the
ciphertext byte produced there, and each ciphertext byte is the key before
that position XOR the plaintext character. -/
theorem encBytes_key_trace : ∀ (key : Nat) (s cs : List Nat),
    encBytes key s = some cs → ∀ i, i < s.length →
      cs.getD i 0 = encKeyAfter key (s.take i) ^^^ s.getD i 0 ∧
      encKeyAfter key (s.take (i + 1)) = cs.getD i 0 := by
  intro key s
  induction s generalizing key with
  | nil => intro cs _ i hi; simp at hi
  | cons c rest ih =>
    intro cs h i hi
    simp only [encBytes] at h
    by_cases ha : key ^^^ c < 256
    · rw [if_pos ha] at h
      cases hrec : encBytes (key ^^^ c) rest with
      | none => rw [hrec] at h; simp at h
      | some cs' =>
        rw [hrec] at h
        simp only [Option.map_some', Option.some.injEq] at h
        subst h
        cases i with
        | zero =>
          constructor
          · simp [encKeyAfter]
          · simp [List.take_succ_cons, encKeyAfter]
        | succ i' =>
          have hi' : i' < rest.length := by simpa using hi
          obtain ⟨h1, h2⟩ := ih (key ^^^ c) cs' hrec i' hi'
          constructor
          · simpa only [List.getD_cons_succ, List.take_succ_cons, encKeyAfter] using h1
          · simpa only [List.getD_cons_succ, List.take_succ_cons, encKeyAfter] using h2
    · rw [if_neg ha] at h
      simp at h

/-- The running key of the decrypt loop after each position equals the
ciphertext byte consumed there, and each plaintext character produced is the
key before that position XOR the ciphertext byte. -/
theorem decBytes_key_trace : ∀ (key : Nat) (d ps : List Nat),
    decBytes key d = some ps → ∀ j, j < d.length →
      ps.getD j 0 = decKeyAfter key (d.take j) ^^^ d.getD j 0 ∧
      decKeyAfter key (d.take (j + 1)) = d.getD j 0 := by
  intro key d
  induction d generalizing key with
  | nil => intro ps _ j hj; simp at hj
  | cons b rest ih =>
    intro ps h j hj
    simp only [decBytes] at h
    by_cases ha : key ^^^ b < 1114112
    · rw [if_pos ha] at h
      cases hrec : decBytes b rest with
      | none => rw [hrec] at h; simp at h
      | some ps' =>
        rw [hrec] at h
        simp only [Option.map_some', Option.some.injEq] at h
        subst h
        cases j with
        | zero =>
          constructor
          · simp [decKeyAfter]
          · simp [List.take_succ_cons, decKeyAfter]
        | succ j' =>
          have hj' : j' < rest.length := by simpa using hj
          obtain ⟨h1, h2⟩ := ih b ps' hrec j' hj'
          constructor
          · simpa only [List.getD_cons_succ, List.take_succ_cons, decKeyAfter] using h1
          · simpa only [List.getD_cons_succ, List.take_succ_cons, decKeyAfter] using h2
    · rw [if_neg ha] at h
      simp at h

/-- C1.  Cipher round-trip: for every plaintext whose characters are all in
byte range (the domain of the byte-sequence cipher), decoding the encoding
yields the plaintext back, both loops seeded with the fresh key 171. -/
theorem cipher_roundtrip (s : List Nat) (h : ∀ c ∈ s, c < 256) :
    (encBytes 171 s).bind (decBytes 171) = some s := by
  obtain ⟨cs, hcs⟩ := encBytes_isSome 171 s (by norm_num) h
  rw [hcs]
  exact (encBytes_decBytes 171 s cs (by norm_num) hcs).2.2

/-- Witness for C1 at the plaintext [104, 105]. -/
theorem cipher_roundtrip_witness :
    (∀ c ∈ ([104, 105] : List Nat), c < 256) ∧
      (encBytes 171 [104, 105]).bind (decBytes 171) = some [104, 105] :=
  ⟨by decide, cipher_roundtrip [104, 105] (by decide)⟩

/-- C2.  Cipher update-rule asymmetry: on encode each output byte is the
running key XOR the plaintext character and the key becomes that output
byte; on decode each output character is the running key XOR the ciphertext
byte and the key becomes that input byte; hence after position i the key
equals the ciphertext byte produced (encode) or consumed (decode) there. -/
theorem cipher_key_update_invariant (s cs d ps : List Nat) (i j : Nat)
    (he : encBytes 171 s = some cs) (hi : i < s.length)
    (hd : decBytes 171 d = some ps) (hj : j < d.length) :
    cs.getD i 0 = encKeyAfter 171 (s.take i) ^^^ s.getD i 0 ∧
    encKeyAfter 171 (s.take (i + 1)) = cs.getD i 0 ∧
    ps.getD j 0 = decKeyAfter 171 (d.take j) ^^^ d.getD j 0 ∧
    decKeyAfter 171 (d.take (j + 1)) = d.getD j 0 := by
  obtain ⟨h1, h2⟩ := encBytes_key_trace 171 s cs he i hi
  obtain ⟨h3, h4⟩ := decBytes_key_trace 171 d ps hd j hj
  exact ⟨h1, h2, h3, h4⟩

/-- Witness for C2: encrypting [1, 2] and decrypting [3, 4] at position 1. -/
theorem cipher_key_update_invariant_witness :
    encBytes 171 [1, 2] = some [170, 168] ∧
    (1 : Nat) < ([1, 2] : List Nat).length ∧
    decBytes 171 [3, 4] = some [168, 7] ∧
    (1 : Nat) < ([3, 4] : List Nat).length ∧
    (([170, 168] : List Nat).getD 1 0 =
        encKeyAfter 171 (([1, 2] : List Nat).take 1) ^^^ ([1, 2] : List Nat).getD 1 0 ∧
      encKeyAfter 171 (([1, 2] : List Nat).take 2) = ([170, 168] : List Nat).getD 1 0 ∧
      ([168, 7] : List Nat).getD 1 0 =
        decKeyAfter 171 (([3, 4] : List Nat).take 1) ^^^ ([3, 4] : List Nat).getD 1 0 ∧
      decKeyAfter 171 (([3, 4] : List Nat).take 2) = ([3, 4] : List Nat).getD 1 0) :=
  ⟨by decide, by decide, by decide, by decide,
    cipher_key_update_invariant [1, 2] [170, 168] [3, 4] [168, 7] 1 1
      (by decide) (by decide) (by decide) (by decide)⟩

/-- C3 (amended: the byte sequence must have length below 2 ^ 32, because
the 4-byte big-endian length prefix is built with struct.pack, which raises
struct.error at 2 ^ 32 and beyond).  Framing round-trip: unframing the frame
of a byte sequence, including the empty one, yields it back, where framing
prefixes the ciphertext with the 4-byte big-endian plaintext length and
unframing strips exactly the first 4 bytes before decoding. -/
theorem frame_unframe_roundtrip (s : List Nat) (hb : ∀ b ∈ s, b < 256)
    (hl : s.length < 2 ^ 32) :
    (encrypt s).bind (fun d => decrypt (d.drop 4)) = some s := by
  obtain ⟨cs, hcs⟩ := encBytes_isSome 171 s (by norm_num) hb
  have hdec := (encBytes_decBytes 171 s cs (by norm_num) hcs).2.2
  simp only [encrypt, if_pos hl, hcs, Option.map_some']
  show decrypt ((pack_be4 s.length ++ cs).drop 4) = some s
  have hdrop : (pack_be4 s.length ++ cs).drop 4 = cs := rfl
  rw [hdrop]
  exact hdec

/-- Witness for C3 at the empty sequence and at [7, 8]. -/
theorem frame_unframe_roundtrip_witness :
    ((∀ b ∈ ([] : List Nat), b < 256) ∧ ([] : List Nat).length < 2 ^ 32 ∧
      (encrypt []).bind (fun d => decrypt (d.drop 4)) = some []) ∧
    ((∀ b ∈ ([7, 8] : List Nat), b < 256) ∧ ([7, 8] : List Nat).length < 2 ^ 32 ∧
      (encrypt [7, 8]).bind (fun d => decrypt (d.drop 4)) = some [7, 8]) :=
  ⟨⟨by decide, by decide, frame_unframe_roundtrip [] (by decide) (by decide)⟩,
    ⟨by decide, by decide, frame_unframe_roundtrip [7, 8] (by decide) (by decide)⟩⟩

/-- C3 counterexample: on the byte sequence of 2 ^ 32 zero bytes the claim
as stated fails, because struct.pack of the length raises struct.error, so
framing errors instead of producing a frame that unframes to the input. -/
theorem frame_unframe_overflow :
    ((encrypt (List.replicate (2 ^ 32) 0)).bind (fun d => decrypt (d.drop 4)))
      ≠ some (List.replicate (2 ^ 32) 0) := by
  have hlen : ¬ ((List.replicate (2 ^ 32) (0 : Nat)).length < 2 ^ 32) := by
    rw [List.length_replicate]
    exact lt_irrefl _
  have henc : encrypt (List.replicate (2 ^ 32) 0) = none := by
    unfold encrypt
    rw [if_neg hlen]
  rw [henc]
  exact fun h => Option.noConfusion h

/-- C10 (amended: the plaintext must also have fewer than 2 ^ 32
characters, because struct.pack of the length raises struct.error at
2 ^ 32 and beyond even when every character is in byte range).  Encode is
total exactly on such strings whose characters all have code points below
256: every produced byte is below 256 and encoding succeeds, while any
input containing a character at 256 or above makes encode raise. -/
theorem encrypt_totality (s : List Nat) (hl : s.length < 2 ^ 32) :
    ((∀ c ∈ s, c < 256) → ∃ out, encrypt s = some out ∧ ∀ b ∈ out, b < 256) ∧
    ((∃ c ∈ s, 256 ≤ c) → encrypt s = none) := by
  constructor
  · intro h
    obtain ⟨cs, hcs⟩ := encBytes_isSome 171 s (by norm_num) h
    obtain ⟨hlen, hbs, _⟩ := encBytes_decBytes 171 s cs (by norm_num) hcs
    refine ⟨pack_be4 s.length ++ cs, ?_, ?_⟩
    · simp only [encrypt, if_pos hl, hcs, Option.map_some']
    · intro b hb
      rcases List.mem_append.mp hb with hb | hb
      · simp only [pack_be4, List.mem_cons, List.not_mem_nil, or_false] at hb
        rcases hb with hb | hb | hb | hb <;> subst hb <;>
          exact Nat.mod_lt _ (by norm_num)
      · exact hbs b hb
  · intro h
    simp only [encrypt, if_pos hl, encBytes_isNone 171 s (by norm_num) h]
    rfl

/-- Witness for C10 at the one-character plaintext [65]. -/
theorem encrypt_totality_witness :
    ([65] : List Nat).length < 2 ^ 32 ∧
    (((∀ c ∈ ([65] : List Nat), c < 256) →
        ∃ out, encrypt [65] = some out ∧ ∀ b ∈ out, b < 256) ∧
      ((∃ c ∈ ([65] : List Nat), 256 ≤ c) → encrypt [65] = none)) :=
  ⟨by decide, encrypt_totality [65] (by decide)⟩

/-- C10 counterexample: the plaintext of 2 ^ 32 copies of character 1 has
every code point below 256, yet encode raises (struct.error from the length
prefix) instead of succeeding, refuting totality on all byte-range
strings. -/
theorem encrypt_overflow_on_bytes :
    (∀ c ∈ List.replicate (2 ^ 32) (1 : Nat), c < 256) ∧
    encrypt (List.replicate (2 ^ 32) 1) = none := by
  constructor
  · intro c hc
    have h := List.eq_of_mem_replicate hc
    omega
  · have hlen : ¬ ((List.replicate (2 ^ 32) (1 : Nat)).length < 2 ^ 32) := by
      rw [List.length_replicate]
      exact lt_irrefl _
    unfold encrypt
    rw [if_neg hlen]

end TPLinkDevice

namespace TPLinkDevice

/-- C6.  Switch client failure containment: a connection or timeout failure
yields the failure value none (the model of the Python return None), and so
does a parse failure of the decoded response; send_command is a total
function of the network outcome, so no exception propagates to the
caller. -/
theorem send_command_failure_containment (command data : List Nat)
    (loads : List Nat → Option Json) :
    send_command command .err loads = none ∧
    ((∀ r, loads r = none) → send_command command (.ok data) loads = none) := by
  constructor
  · rfl
  · intro hl
    cases he : encrypt command with
    | none => simp [send_command, he]
    | some e =>
      cases hd : decrypt (data.drop 4) with
      | none => simp [send_command, he, hd]
      | some r => simp [send_command, he, hd, hl]

/-- Witness for C6: a failed exchange and a parse failure both yield
none. -/
theorem send_command_failure_containment_witness :
    send_command [] .err (fun _ => none) = none ∧
    send_command [] (.ok [0, 0, 0, 0]) (fun _ => none) = none :=
  ⟨(send_command_failure_containment [] [0, 0, 0, 0] (fun _ => none)).1,
    (send_command_failure_containment [] [0, 0, 0, 0] (fun _ => none)).2
      (fun _ => rfl)⟩

end TPLinkDevice

namespace WebOSTV

/-- The saves performed by a session handler are exactly those of the new
client key comparison on line 212, whatever the command is. -/
theorem handle_client_commands_saves (w : TVWorld) (k : Option String)
    (cmd : String) :
    (handle_client_commands w k cmd).1 =
      if py_truthy_opt w.yieldedKey ∧ w.yieldedKey ≠ k
      then [w.yieldedKey.getD ""] else [] := by
  by_cases h1 : cmd = "turn_off"
  · simp [handle_client_commands, h1]
  · by_cases h2 : cmd = "turn_on"
    · simp [handle_client_commands, h1, h2]
    · by_cases h3 : cmd = "get_power"
      · simp [handle_client_commands, h1, h2, h3]
      · simp [handle_client_commands, h1, h2, h3]

/-- C5.  Power-state interpretation: Active and Screen On map to true,
Power Off and Screen Off map to false, and any other state value, a
missing state field, or a raising or malformed response maps to None
(unknown); the interpretation is a total function, never an error. -/
theorem power_state_mapping (v : Option Json)
    (hv : ∀ s : String, v = some (.str s) →
      s ∉ (["Active", "Screen On", "Power Off", "Screen Off"] : List String)) :
    get_screen_state (.ok (some (.str "Active"))) = some true ∧
    get_screen_state (.ok (some (.str "Screen On"))) = some true ∧
    get_screen_state (.ok (some (.str "Power Off"))) = some false ∧
    get_screen_state (.ok (some (.str "Screen Off"))) = some false ∧
    get_screen_state (.ok v) = none ∧
    get_screen_state (.ok none) = none ∧
    get_screen_state .raise = none := by
  refine ⟨by decide, by decide, by decide, by decide, ?_, rfl, rfl⟩
  cases v with
  | none => rfl
  | some j =>
    cases j with
    | str s =>
      have hs := hv s rfl
      have h1 : ¬ s ∈ (["Active", "Screen On"] : List String) := by
        intro hmem
        apply hs
        simp only [List.mem_cons, List.not_mem_nil, or_false] at hmem ⊢
        tauto
      have h2 : ¬ s ∈ (["Power Off", "Screen Off"] : List String) := by
        intro hmem
        apply hs
        simp only [List.mem_cons, List.not_mem_nil, or_false] at hmem ⊢
        tauto
      simp [get_screen_state, state_in, h1, h2]
    | null => rfl
    | bool b => rfl
    | num n => rfl
    | arr xs => rfl
    | obj fs => rfl

/-- Witness for C5 at the state value Unknown. -/
theorem power_state_mapping_witness :
    get_screen_state (.ok (some (.str "Active"))) = some true ∧
    get_screen_state (.ok (some (.str "Screen On"))) = some true ∧
    get_screen_state (.ok (some (.str "Power Off"))) = some false ∧
    get_screen_state (.ok (some (.str "Screen Off"))) = some false ∧
    get_screen_state (.ok (some (.str "Unknown"))) = none ∧
    get_screen_state (.ok none) = none ∧
    get_screen_state .raise = none :=
  power_state_mapping (some (.str "Unknown"))
    (fun s hs => by
      simp only [Option.some.injEq, Json.str.injEq] at hs
      subst hs
      decide)

/-- C4 counterexample: a session whose load and connection succeed and
whose handshake yields no credential (Python None) while the store held k
has a yielded credential differing from the loaded one, yet performs no
save, because line 212 only saves a truthy new key.  This refutes the
claim that every differing credential is saved exactly once. -/
theorem save_skipped_when_key_absent :
    (none : Option String) ≠ some "k" ∧
    execute_command ⟨true, some "k", true, none, false, .ok none⟩ "turn_on"
      = (some true, []) := by
  constructor
  · intro h
    exact Option.noConfusion h
  · rfl

/-- C4 (amended: the code saves only a truthy yielded credential, so a
yielded credential that is absent or empty is never saved even when it
differs from the loaded one).  In every session whose load and connection
succeed: a present non-empty yielded credential differing from the loaded
one is saved exactly once with that value; an unchanged credential is not
saved; an absent or empty yielded credential is not saved. -/
theorem pairing_key_save_policy (w : TVWorld) (cmd : String) (s : String)
    (hl : w.loadOk = true) (hc : w.connectOk = true) :
    (w.yieldedKey = some s → s ≠ "" → w.yieldedKey ≠ w.loadedKey →
      (execute_command w cmd).2 = [s]) ∧
    (w.yieldedKey = w.loadedKey → (execute_command w cmd).2 = []) ∧
    ((w.yieldedKey = none ∨ w.yieldedKey = some "") →
      (execute_command w cmd).2 = []) := by
  have hs2 : (execute_command w cmd).2 =
      (handle_client_commands w w.loadedKey cmd).1 := by
    cases hh : handle_client_commands w w.loadedKey cmd with
    | mk sv r =>
      cases r with
      | none => simp [execute_command, hl, hc, hh]
      | some v => simp [execute_command, hl, hc, hh]
  rw [hs2, handle_client_commands_saves]
  refine ⟨?_, ?_, ?_⟩
  · intro hy hne hdiff
    have hcond : py_truthy_opt w.yieldedKey ∧ w.yieldedKey ≠ w.loadedKey := by
      refine ⟨?_, hdiff⟩
      rw [hy]
      simpa [py_truthy_opt] using hne
    rw [if_pos hcond, hy]
    rfl
  · intro heq
    have hcond : ¬ (py_truthy_opt w.yieldedKey ∧ w.yieldedKey ≠ w.loadedKey) := by
      rintro ⟨-, hne⟩
      exact hne heq
    rw [if_neg hcond]
  · intro hy
    have hcond : ¬ (py_truthy_opt w.yieldedKey ∧ w.yieldedKey ≠ w.loadedKey) := by
      rintro ⟨ht, -⟩
      rcases hy with hy | hy <;> rw [hy] at ht <;> simp [py_truthy_opt] at ht
    rw [if_neg hcond]

/-- Witness for C4: a new key new is saved exactly once, an unchanged key k
is not saved. -/
theorem pairing_key_save_policy_witness :
    (execute_command ⟨true, some "old", true, some "new", false, .ok none⟩
      "get_power").2 = ["new"] ∧
    (execute_command ⟨true, some "k", true, some "k", false, .ok none⟩
      "get_power").2 = [] :=
  ⟨(pairing_key_save_policy ⟨true, some "old", true, some "new", false, .ok none⟩
      "get_power" "new" rfl rfl).1 rfl (by decide) (by decide),
    (pairing_key_save_policy ⟨true, some "k", true, some "k", false, .ok none⟩
      "get_power" "k" rfl rfl).2.1 rfl⟩

/-- C7 counterexample: when the connection succeeds, a new credential is
saved, and only then does the command dispatch raise; the call surfaces a
failure result, yet a save has occurred, refuting that no save occurs on
any failure path. -/
theorem save_despite_dispatch_failure :
    execute_command ⟨true, some "old", true, some "new", true, .ok none⟩
      "turn_off" = (none, ["new"]) ∧ (["new"] : List String) ≠ [] := by
  constructor
  · rfl
  · intro h
    exact List.noConfusion h

/-- C7 (amended: the credential atomicity holds for load and connection
failures, where no save occurs; but when the connection succeeds a new
credential may already have been saved before a command-dispatch failure
surfaces).  Every exception during load, connect or command dispatch is
caught and surfaces as the failure result None, never as a propagated
crash. -/
theorem execute_command_failure_containment (w : TVWorld) (cmd : String) :
    (w.loadOk = false → execute_command w cmd = (none, [])) ∧
    (w.connectOk = false → execute_command w cmd = (none, [])) ∧
    (w.commandRaises = true → (cmd = "turn_off" ∨ cmd = "turn_on") →
      (execute_command w cmd).1 = none) := by
  refine ⟨?_, ?_, ?_⟩
  · intro h
    simp [execute_command, h]
  · intro h
    by_cases hl : w.loadOk = false
    · simp [execute_command, hl]
    · simp [execute_command, hl, h]
  · intro hr hcmd
    by_cases hl : w.loadOk = false
    · simp [execute_command, hl]
    · by_cases hc : w.connectOk = false
      · simp [execute_command, hl, hc]
      · rcases hcmd with hcmd | hcmd <;> subst hcmd <;>
          simp [execute_command, hl, hc, handle_client_commands, hr]

/-- Witness for C7: a failed connection yields None with no save; a raising
dispatch after a successful connection yields the result None. -/
theorem execute_command_failure_containment_witness :
    execute_command ⟨false, none, false, none, false, .ok none⟩ "turn_off"
      = (none, []) ∧
    (execute_command ⟨true, none, true, none, true, .ok none⟩ "turn_off").1
      = none :=
  ⟨(execute_command_failure_containment
      ⟨false, none, false, none, false, .ok none⟩ "turn_off").1 rfl,
    (execute_command_failure_containment
      ⟨true, none, true, none, true, .ok none⟩ "turn_off").2.2 rfl (Or.inl rfl)⟩

end WebOSTV

/-- C8 counterexample: dispatching the unknown action frobnicate on the
switch route attempts no device I/O, but its outcome is the generic
Command failed error response, the same one used for device failures, and
not the distinct Invalid action outcome the television route produces. -/
theorem switch_invalid_action_not_distinct :
    control_tplink (some "192.168.1.100") "frobnicate" (fun _ => none)
      ⟨false, false, 0⟩ 0 = (.err "Command failed", ⟨false, false, 0⟩, []) ∧
    RouteResult.err "Command failed" ≠ RouteResult.err "Invalid action" := by
  constructor
  · rfl
  · decide

/-- C8 (amended: an action outside the allowed set of a device kind is
rejected by that route without any network I/O toward the device, but only
the television route reports the distinct Invalid action error; the switch
route falls through to the same generic Command failed error it uses for
device failures).  The two action arguments range independently over
everything outside the respective allowed sets, so in particular the
television actions dispatched to the switch route and the switch actions
dispatched to the television route are covered. -/
theorem invalid_action_no_io (cfg : Option String)
    (sw_action tv_action : String) (dev : Json → Option Json)
    (w : WebOSTV.TVWorld) (st : DeviceStates) (now : Nat)
    (hip : py_truthy_opt cfg = true)
    (h1 : sw_action ≠ "on") (h2 : sw_action ≠ "off")
    (h3 : sw_action ≠ "status")
    (h4 : tv_action ≠ "screen_on") (h5 : tv_action ≠ "screen_off")
    (h6 : tv_action ≠ "status") :
    (control_tplink cfg sw_action dev st now).1 = .err "Command failed" ∧
    (control_tplink cfg sw_action dev st now).2.2 = [] ∧
    (control_tv cfg tv_action w st now).1 = .err "Invalid action" ∧
    (control_tv cfg tv_action w st now).2.2.2 = 0 := by
  have hsw : control_tplink cfg sw_action dev st now
      = (.err "Command failed", st, []) := by
    simp [control_tplink, hip, h1, h2, h3]
  have htv : control_tv cfg tv_action w st now
      = (.err "Invalid action", st, [], 0) := by
    simp [control_tv, hip, h4, h5, h6]
  rw [hsw, htv]
  exact ⟨rfl, rfl, rfl, rfl⟩

/-- Witness for C8 at the cross-kind actions: screen_on dispatched to the
switch route and on dispatched to the television route. -/
theorem invalid_action_no_io_witness :
    py_truthy_opt (some "10.0.0.2") = true ∧
    ((control_tplink (some "10.0.0.2") "screen_on" (fun _ => none)
        ⟨false, false, 0⟩ 0).1 = .err "Command failed" ∧
      (control_tplink (some "10.0.0.2") "screen_on" (fun _ => none)
        ⟨false, false, 0⟩ 0).2.2 = [] ∧
      (control_tv (some "10.0.0.2") "on"
        ⟨true, none, true, none, false, .ok none⟩ ⟨false, false, 0⟩ 0).1
        = .err "Invalid action" ∧
      (control_tv (some "10.0.0.2") "on"
        ⟨true, none, true, none, false, .ok none⟩ ⟨false, false, 0⟩ 0).2.2.2
        = 0) :=
  ⟨rfl, invalid_action_no_io (some "10.0.0.2") "screen_on" "on"
    (fun _ => none) ⟨true, none, true, none, false, .ok none⟩
    ⟨false, false, 0⟩ 0 rfl
    (by decide) (by decide) (by decide) (by decide) (by decide) (by decide)⟩

/-- C9.  Switch dispatch end-to-end: whatever the device answers, the on,
off and status actions send exactly the documented command objects and
nothing else; and when the device response to the status query is the
sysinfo object with relay_state 1, the route returns success with state
true and writes that state and the fresh timestamp into the cache. -/
theorem switch_dispatch_commands_and_status (cfg : Option String)
    (dev : Json → Option Json) (st : DeviceStates) (now : Nat)
    (hip : py_truthy_opt cfg = true) :
    (control_tplink cfg "on" dev st now).2.2 =
      [Json.obj [("system",
        Json.obj [("set_relay_state", Json.obj [("state", Json.num 1)])])]] ∧
    (control_tplink cfg "off" dev st now).2.2 =
      [Json.obj [("system",
        Json.obj [("set_relay_state", Json.obj [("state", Json.num 0)])])]] ∧
    (control_tplink cfg "status" dev st now).2.2 =
      [Json.obj [("system", Json.obj [("get_sysinfo", Json.obj [])])]] ∧
    control_tplink cfg "status"
      (fun _ => some (Json.obj [("system",
        Json.obj [("get_sysinfo", Json.obj [("relay_state", Json.num 1)])])]))
      st now =
      (.ok true, { tplink := true, tv := st.tv, last_update := now },
        [Json.obj [("system", Json.obj [("get_sysinfo", Json.obj [])])]]) := by
  refine ⟨?_, ?_, ?_, ?_⟩
  · unfold control_tplink
    rw [if_pos hip, if_pos (rfl : ("on" : String) = "on")]
    repeat' split
    all_goals rfl
  · unfold control_tplink
    rw [if_pos hip, if_neg (by decide : ¬ ("off" : String) = "on"),
      if_pos (rfl : ("off" : String) = "off")]
    repeat' split
    all_goals rfl
  · unfold control_tplink
    rw [if_pos hip, if_neg (by decide : ¬ ("status" : String) = "on"),
      if_neg (by decide : ¬ ("status" : String) = "off"),
      if_pos (rfl : ("status" : String) = "status")]
    repeat' split
    all_goals rfl
  · simp [control_tplink, hip, update_device_state, py_truthy, py_in,
      py_getitem, py_eq_one, TPLinkDevice.get_info_command, List.lookup]

/-- Witness for C9 at a configured address, an always-failing device for
the trace conjuncts, and the empty cache. -/
theorem switch_dispatch_commands_and_status_witness :
    py_truthy_opt (some "10.0.0.3") = true ∧
    ((control_tplink (some "10.0.0.3") "on" (fun _ => none)
        ⟨false, false, 0⟩ 0).2.2 =
      [Json.obj [("system",
        Json.obj [("set_relay_state", Json.obj [("state", Json.num 1)])])]] ∧
    (control_tplink (some "10.0.0.3") "off" (fun _ => none)
        ⟨false, false, 0⟩ 0).2.2 =
      [Json.obj [("system",
        Json.obj [("set_relay_state", Json.obj [("state", Json.num 0)])])]] ∧
    (control_tplink (some "10.0.0.3") "status" (fun _ => none)
        ⟨false, false, 0⟩ 0).2.2 =
      [Json.obj [("system", Json.obj [("get_sysinfo", Json.obj [])])]] ∧
    control_tplink (some "10.0.0.3") "status"
      (fun _ => some (Json.obj [("system",
        Json.obj [("get_sysinfo", Json.obj [("relay_state", Json.num 1)])])]))
      ⟨false, false, 0⟩ 0 =
      (.ok true, { tplink := true, tv := false, last_update := 0 },
        [Json.obj [("system", Json.obj [("get_sysinfo", Json.obj [])])]])) :=
  ⟨rfl, switch_dispatch_commands_and_status (some "10.0.0.3") (fun _ => none)
    ⟨false, false, 0⟩ 0 rfl⟩
